import Mathlib

/-!
Verification of the SkillSol read-only HTTP query service (`app.py`).

The service loads a JSON document into six in-memory collections
(organizations, teams, roles, individuals, skills, benchmarks) and serves
lookup, filter, and skill-gap queries over them.  We embed the dataset, the
request handlers and the startup loader as pure Lean functions, modelling
Python records as association lists of string keys to JSON values, Python
`KeyError` / `TypeError` exceptions via `Except` (an uncaught exception in a
Flask handler yields an HTTP 500 response), and Python truthiness of query
parameters (absent or empty string are both falsy).
-/

/-- A JSON value as it occurs in record fields of this dataset: either a
string (ids, industry names) or an array of strings (skill-id lists). -/
inductive JVal : Type where
  | str (s : String)
  | arr (l : List String)
deriving DecidableEq, Repr

/-- Python `==` between two field values: equal strings, or elementwise equal
lists; a string never equals a list (no exception, just `False`). -/
def JVal.beq : JVal → JVal → Bool
  | .str a, .str b => a == b
  | .arr a, .arr b => a == b
  | _, _ => false

/-- A Python dict record: association list from keys to values (dict keys are
unique, so first-key lookup is dict lookup). -/
abbrev Record := List (String × JVal)

/-- Dict lookup `r.get(k)`: the value at key `k`, if present. -/
def recFind (r : Record) (k : String) : Option JVal :=
  (r.find? (fun p => p.1 == k)).map (fun p => p.2)

/-- Python subscript `r[k]`: raises `KeyError` when the key is absent. -/
def getField (r : Record) (k : String) : Except String JVal :=
  match recFind r k with
  | some v => .ok v
  | none => .error ("KeyError: " ++ k)

/-- Key containment test, Python `k in r`. -/
def hasField (r : Record) (k : String) : Bool :=
  (recFind r k).isSome

/-- The record has key `k` bound to a string value. -/
def hasStrField (r : Record) (k : String) : Bool :=
  match recFind r k with
  | some (.str _) => true
  | _ => false

/-- Boolean test `r[k] == v` under total lookup: false when the key is
absent (used on the specification side, where records are well-formed). -/
def fieldMatches (r : Record) (k : String) (v : JVal) : Bool :=
  match recFind r k with
  | some w => JVal.beq w v
  | none => false

/-- The six collections extracted at startup (`data.get(...)` in
`create_app`), read-only for the process lifetime. -/
structure Dataset : Type where
  organizations : List Record
  teams : List Record
  roles : List Record
  individuals : List Record
  skills : List Record
  benchmarks : List (String × List String)
deriving DecidableEq, Repr

/-- A successfully parsed startup document: each of the six top-level fields
may be present or absent. -/
structure RawDoc : Type where
  organizations? : Option (List Record)
  teams? : Option (List Record)
  roles? : Option (List Record)
  individuals? : Option (List Record)
  skills? : Option (List Record)
  benchmarks? : Option (List (String × List String))

/-- Field extraction from a parsed document: `data.get('organizations', [])`
and the five analogous lines, each defaulting independently. -/
def extractData (d : RawDoc) : Dataset where
  organizations := d.organizations?.getD []
  teams := d.teams?.getD []
  roles := d.roles?.getD []
  individuals := d.individuals?.getD []
  skills := d.skills?.getD []
  benchmarks := d.benchmarks?.getD []

/-- The all-empty fallback dataset installed when the document cannot be
read or parsed. -/
def emptyData : Dataset where
  organizations := []
  teams := []
  roles := []
  individuals := []
  skills := []
  benchmarks := []

/-- Startup load: `none` models an unreadable or unparsable document (the
`except` branch of `create_app`), `some d` a parsed document. -/
def loadData : Option RawDoc → Dataset
  | some d => extractData d
  | none => emptyData

/-- An HTTP response produced by a handler: a 200 JSON body of one of the
shapes the handlers emit, a 404 plain-text miss, a structured JSON error
with its status code, or a 500 from an uncaught Python exception. -/
inductive HResp : Type where
  | okList (l : List Record)
  | okRecord (r : Record)
  | okStrs (l : List String)
  | okMap (m : List (String × List String))
  | notFound (msg : String)
  | errJson (msg : String) (code : Nat)
  | serverError (msg : String)
deriving DecidableEq, Repr

/-- The HTTP status code of a response. -/
def HResp.status : HResp → Nat
  | .okList _ => 200
  | .okRecord _ => 200
  | .okStrs _ => 200
  | .okMap _ => 200
  | .notFound _ => 404
  | .errJson _ c => c
  | .serverError _ => 500

/-- Run a handler body: an uncaught exception becomes a 500 response. -/
def runH : Except String HResp → HResp
  | .ok r => r
  | .error e => .serverError e

/-- Python truthiness of an optional query parameter: absent (`None`) and
the empty string are falsy, every other string is truthy. -/
def pyTruthy : Option String → Bool
  | none => false
  | some s => s != ""

/-- List comprehension `[r for r in rs if r[k] == v]`: raises `KeyError` at
the first record lacking key `k`. -/
def filterByFK : List Record → String → JVal → Except String (List Record)
  | [], _, _ => .ok []
  | r :: rest, k, v => do
    let w ← getField r k
    let tail ← filterByFK rest k v
    return if JVal.beq w v then r :: tail else tail

/-- Generator search `next((r for r in rs if r['id'] == v), None)`: first
record whose id equals `v`, scanning in load order; raises `KeyError` at a
record lacking an id before a match is found. -/
def findById : List Record → String → Except String (Option Record)
  | [], _ => .ok none
  | r :: rest, v => do
    let w ← getField r "id"
    if JVal.beq w (.str v) then return some r else findById rest v

/-- Dict lookup in the benchmarks mapping (`benchmarks.get(industry, [])`
when a separate default is applied by the caller). -/
def benchLookup (b : List (String × List String)) (k : String) :
    Option (List String) :=
  (b.find? (fun p => p.1 == k)).map (fun p => p.2)

/-- Python iteration of a `role.get('expected_skills', [])` value as done by
`set.update`: an absent field contributes nothing, a list contributes its
elements, a string contributes its characters (as one-character strings). -/
def pyIterStrs : Option JVal → List String
  | none => []
  | some (.arr l) => l
  | some (.str s) => s.data.map (fun c => String.mk [c])

/-- The nested accumulation loop of `get_skill_gap`: for each team of the
organization, filter the roles by `r['team_id'] == team['id']` and union
their expected skills.  The Python `set` is modelled as a list used only
through membership.  Raises at a team lacking `id` or a role lacking
`team_id`. -/
def accumExpected (roles : List Record) : List Record → Except String (List String)
  | [] => .ok []
  | t :: ts => do
    let tid ← getField t "id"
    let tRoles ← filterByFK roles "team_id" tid
    let rest ← accumExpected roles ts
    return (tRoles.map (fun r => pyIterStrs (recFind r "expected_skills"))).flatten ++ rest

/-- Membership test `s['id'] in gap_skill_ids` where the right side is a
Python set of strings: a list value is unhashable and raises `TypeError`. -/
def inStrSet (v : JVal) (gap : List String) : Except String Bool :=
  match v with
  | .str t => .ok (gap.contains t)
  | .arr _ => .error "TypeError: unhashable type"

/-- Final comprehension `[s for s in skills if s['id'] in gap_skill_ids]`. -/
def filterSkills (skills : List Record) (gap : List String) :
    Except String (List Record) :=
  match skills with
  | [] => .ok []
  | s :: rest => do
    let w ← getField s "id"
    let inGap ← inStrSet w gap
    let tail ← filterSkills rest gap
    return if inGap then s :: tail else tail

/-- Last stage of the gap computation, from the benchmark skill-id list and
the accumulated expected-skill set: set difference then resolution against
the skill collection. -/
def gapFromExpected (skills : List Record) (bench expected : List String) :
    Except String (List Record) :=
  filterSkills skills (bench.filter (fun b => !expected.contains b))

/-- Handler for `GET /organizations`. -/
def get_organizations (ds : Dataset) : HResp :=
  .okList ds.organizations

/-- Shared shape of the four get-by-id handlers: first id match or a 404
with the collection-specific message (an empty matched dict would be falsy
and also report 404, mirroring `jsonify(org) if org else (..., 404)`). -/
def getByIdResp (rs : List Record) (idv : String) (msg : String) : HResp :=
  runH ((findById rs idv).map (fun o =>
    match o with
    | some r => if r.isEmpty then .notFound msg else .okRecord r
    | none => .notFound msg))

/-- Handler for `GET /organizations/(org_id)`. -/
def get_organization (ds : Dataset) (org_id : String) : HResp :=
  getByIdResp ds.organizations org_id "Organization not found"

/-- Handler for `GET /teams` with optional `organization_id` filter. -/
def get_teams (ds : Dataset) (org_id : Option String) : HResp :=
  if pyTruthy org_id then
    runH ((filterByFK ds.teams "organization_id" (.str (org_id.getD ""))).map .okList)
  else
    .okList ds.teams

/-- Handler for `GET /teams/(team_id)`. -/
def get_team (ds : Dataset) (team_id : String) : HResp :=
  getByIdResp ds.teams team_id "Team not found"

/-- Handler for `GET /roles` with optional `team_id` filter. -/
def get_roles (ds : Dataset) (team_id : Option String) : HResp :=
  if pyTruthy team_id then
    runH ((filterByFK ds.roles "team_id" (.str (team_id.getD ""))).map .okList)
  else
    .okList ds.roles

/-- Handler for `GET /roles/(role_id)`. -/
def get_role (ds : Dataset) (role_id : String) : HResp :=
  getByIdResp ds.roles role_id "Role not found"

/-- Handler for `GET /individuals` with optional `team_id` / `role_id`
filters; a truthy `team_id` takes the first branch and `role_id` is never
read there. -/
def get_individuals (ds : Dataset) (team_id role_id : Option String) : HResp :=
  if pyTruthy team_id then
    runH ((filterByFK ds.individuals "team_id" (.str (team_id.getD ""))).map .okList)
  else if pyTruthy role_id then
    runH ((filterByFK ds.individuals "role_id" (.str (role_id.getD ""))).map .okList)
  else
    .okList ds.individuals

/-- Handler for `GET /individuals/(ind_id)`. -/
def get_individual (ds : Dataset) (ind_id : String) : HResp :=
  getByIdResp ds.individuals ind_id "Individual not found"

/-- Handler for `GET /skills`. -/
def get_skills (ds : Dataset) : HResp :=
  .okList ds.skills

/-- Handler for `GET /benchmarks` with optional `industry` parameter. -/
def get_benchmarks (ds : Dataset) (industry : Option String) : HResp :=
  if pyTruthy industry then
    .okStrs ((benchLookup ds.benchmarks (industry.getD "")).getD [])
  else
    .okMap ds.benchmarks

/-- Benchmark lookup keyed by the organization record's `industry` value:
a list-valued industry is unhashable and raises `TypeError` inside
`benchmarks.get`. -/
def benchGet (b : List (String × List String)) : JVal → Except String (List String)
  | .str s => .ok ((benchLookup b s).getD [])
  | .arr _ => .error "TypeError: unhashable type"

/-- Handler for `GET /skillgap`: required `org_id` parameter, organization
resolution, industry presence check, team/role expected-skill accumulation,
benchmark set difference, and resolution to skill records. -/
def get_skill_gap (ds : Dataset) (org_id : Option String) : HResp :=
  if pyTruthy org_id then
    let oid := org_id.getD ""
    runH (do
      let org? ← findById ds.organizations oid
      match org? with
      | none => return .errJson "Organization not found" 404
      | some org =>
        if org.isEmpty then
          return .errJson "Organization not found" 404
        else if !hasField org "industry" then
          return .errJson "Organization does not have an industry field" 400
        else do
          let orgIndustry ← getField org "industry"
          let orgTeams ← filterByFK ds.teams "organization_id" (.str oid)
          let expected ← accumExpected ds.roles orgTeams
          let bench ← benchGet ds.benchmarks orgIndustry
          let gap ← gapFromExpected ds.skills bench expected
          return .okList gap)
  else
    .errJson "org_id parameter is required" 400

/-! ## Specification-side definitions

These follow the wording of the specification (first match in load order,
filter subsequences, set-difference gap) and are compared against the
handler embeddings above. -/

/-- Specification wording of get-by-id: the first record in load order whose
id field equals the supplied id. -/
def specFirst (rs : List Record) (v : String) : Option Record :=
  rs.find? (fun r => fieldMatches r "id" (.str v))

/-- Specification wording of list-with-filter: the subsequence of records
whose foreign-key field equals the filter value. -/
def specFilter (rs : List Record) (k : String) (v : String) : List Record :=
  rs.filter (fun r => fieldMatches r k (.str v))

/-- The record's foreign key `k` equals the id of record `t`. -/
def fkLinks (r : Record) (k : String) (t : Record) : Bool :=
  match recFind t "id" with
  | some tid => fieldMatches r k tid
  | none => false

/-- A role's expected-skill list per the data model: the `expected_skills`
field when present (a list of skill ids), defaulting to empty. -/
def expSkills (r : Record) : List String :=
  match recFind r "expected_skills" with
  | some (.arr l) => l
  | _ => []

/-- The pure value of the nested accumulation loop on well-formed records:
per team of the given list, the expected skills of the roles linked to it,
all flattened. -/
def accumValue (roles teams : List Record) : List String :=
  (teams.map (fun t => ((roles.filter (fun r => fkLinks r "team_id" t)).map
    (fun r => pyIterStrs (recFind r "expected_skills"))).flatten)).flatten

/-- The pure value of the final comprehension on well-formed records: the
skill records whose string id lies in the gap set. -/
def skillsWithIdIn (skills : List Record) (gap : List String) : List Record :=
  skills.filter (fun s =>
    match recFind s "id" with
    | some (.str t) => gap.contains t
    | _ => false)

/-- Specification wording: the roles whose `team_id` equals the id of some
team whose `organization_id` equals the given organization id. -/
def specRolesUnderOrg (ds : Dataset) (oid : String) : List Record :=
  ds.roles.filter (fun r => ds.teams.any (fun t =>
    fieldMatches t "organization_id" (.str oid) && fkLinks r "team_id" t))

/-- Specification wording: the union of `expected_skills` over all roles
under the organization (a list used only through membership). -/
def specExpectedUnion (ds : Dataset) (oid : String) : List String :=
  ((specRolesUnderOrg ds oid).map expSkills).flatten

/-- Specification wording of the gap: benchmark skill ids for the industry
(empty when the industry is not a benchmark key) minus the expected union. -/
def specGapIds (ds : Dataset) (oid : String) (ind : String) : List String :=
  ((benchLookup ds.benchmarks ind).getD []).filter
    (fun b => !(specExpectedUnion ds oid).contains b)

/-- Specification wording of the skill-gap result: the records of the skill
collection whose id is a gap skill id (ids with no skill record are thereby
silently omitted). -/
def specGapSkills (ds : Dataset) (oid : String) (ind : String) : List Record :=
  skillsWithIdIn ds.skills (specGapIds ds oid ind)

/-! ## Concrete datasets

Small datasets used to instantiate the theorems: `exData` is the worked
example of the specification, the others isolate particular behaviors. -/

/-- The worked example of the specification: one organization in the tech
industry, one team, one role expecting `s1`, two skills, and a tech
benchmark of `s1` and `s2`. -/
def exData : Dataset where
  organizations := [[("id", .str "o1"), ("industry", .str "tech")]]
  teams := [[("id", .str "t1"), ("organization_id", .str "o1")]]
  roles := [[("id", .str "r1"), ("team_id", .str "t1"), ("expected_skills", .arr ["s1"])]]
  individuals := [[("id", .str "i1"), ("team_id", .str "t1"), ("role_id", .str "r1")]]
  skills := [[("id", .str "s1")], [("id", .str "s2")]]
  benchmarks := [("tech", ["s1", "s2"])]

/-- A dataset whose only content is one benchmark industry. -/
def benchData : Dataset where
  organizations := []
  teams := []
  roles := []
  individuals := []
  skills := []
  benchmarks := [("tech", ["s1"])]

/-- A dataset with one organization that has no industry field. -/
def noIndData : Dataset where
  organizations := [[("id", .str "o2")]]
  teams := []
  roles := []
  individuals := []
  skills := []
  benchmarks := []

/-- A dataset with a team whose `organization_id` is the empty string next
to a team with a nonempty one. -/
def emptyFkData : Dataset where
  organizations := []
  teams := [[("id", .str "t1"), ("organization_id", .str "")],
            [("id", .str "t2"), ("organization_id", .str "x")]]
  roles := []
  individuals := []
  skills := []
  benchmarks := []

/-- A dataset with a team record lacking the `organization_id` field. -/
def missingFkData : Dataset where
  organizations := []
  teams := [[("id", .str "t1")]]
  roles := []
  individuals := []
  skills := []
  benchmarks := []

/-- A dataset whose only organization has the empty string as its id. -/
def emptyIdOrgData : Dataset where
  organizations := [[("id", .str ""), ("industry", .str "tech")]]
  teams := []
  roles := []
  individuals := []
  skills := [[("id", .str "s1")]]
  benchmarks := [("tech", ["s1"])]

/-- The parsed startup document with all six top-level fields absent. -/
def emptyDoc : RawDoc where
  organizations? := none
  teams? := none
  roles? := none
  individuals? := none
  skills? := none
  benchmarks? := none

/-! ## Helper lemmas -/

theorem contains_eq_mem {l : List String} {a : String} :
    l.contains a = true ↔ a ∈ l :=
  List.elem_iff

theorem hasField_iff {r : Record} {k : String} :
    hasField r k = true ↔ ∃ v, recFind r k = some v := by
  unfold hasField
  cases h : recFind r k <;> simp [Option.isSome]

theorem fieldMatches_of_recFind {r : Record} {k : String} {w v : JVal}
    (h : recFind r k = some w) : fieldMatches r k v = JVal.beq w v := by
  unfold fieldMatches
  rw [h]

theorem recFind_nil {k : String} : recFind ([] : Record) k = none := rfl

theorem fieldMatches_nonempty {r : Record} {k : String} {v : JVal}
    (h : fieldMatches r k v = true) : r.isEmpty = false := by
  cases r with
  | nil => simp [fieldMatches, recFind_nil] at h
  | cons p rest => rfl

theorem getField_of_recFind {r : Record} {k : String} {w : JVal}
    (h : recFind r k = some w) : getField r k = .ok w := by
  unfold getField
  rw [h]

theorem ok_bind {α β : Type} (a : α) (f : α → Except String β) :
    (Except.ok a : Except String α) >>= f = f a := rfl

theorem error_bind {α β : Type} (e : String) (f : α → Except String β) :
    (Except.error e : Except String α) >>= f = .error e := rfl

theorem pure_eq_ok {α : Type} (a : α) :
    (pure a : Except String α) = .ok a := rfl

/-- With the foreign-key field present on every record, the filtering
comprehension succeeds and equals the specification filter. -/
theorem filterByFK_ok (rs : List Record) (k : String) (v : JVal)
    (h : ∀ r ∈ rs, hasField r k = true) :
    filterByFK rs k v = .ok (rs.filter (fun r => fieldMatches r k v)) := by
  induction rs with
  | nil => rfl
  | cons r rest ih =>
    obtain ⟨w, hw⟩ := hasField_iff.mp (h r (by simp))
    have hrest := ih (fun x hx => h x (by simp [hx]))
    simp only [filterByFK, getField_of_recFind hw, ok_bind, hrest, pure_eq_ok,
      List.filter_cons, fieldMatches_of_recFind hw]

/-- With ids present on every record, the generator search succeeds and
returns the first match in load order. -/
theorem findById_ok (rs : List Record) (v : String)
    (h : ∀ r ∈ rs, hasField r "id" = true) :
    findById rs v = .ok (specFirst rs v) := by
  induction rs with
  | nil => rfl
  | cons r rest ih =>
    obtain ⟨w, hw⟩ := hasField_iff.mp (h r (by simp))
    have hrest := ih (fun x hx => h x (by simp [hx]))
    simp only [findById, getField_of_recFind hw, ok_bind, pure_eq_ok]
    cases hb : JVal.beq w (.str v) with
    | false =>
      rw [if_neg (by simp [hb]), hrest]
      unfold specFirst
      rw [List.find?_cons_of_neg _ (by simp [fieldMatches_of_recFind hw, hb])]
    | true =>
      rw [if_pos rfl]
      unfold specFirst
      rw [List.find?_cons_of_pos _ (by simp [fieldMatches_of_recFind hw, hb])]

/-- A first match returned by the specification search is a nonempty record
(it carries the id field it matched on). -/
theorem specFirst_nonempty {rs : List Record} {v : String} {r : Record}
    (h : specFirst rs v = some r) : r.isEmpty = false := by
  unfold specFirst at h
  exact fieldMatches_nonempty (List.find?_some (p := fun x => fieldMatches x "id" (.str v)) h)

/-- The shared get-by-id handler body equals first-match-or-404. -/
theorem getByIdResp_eq (rs : List Record) (idv msg : String)
    (h : ∀ r ∈ rs, hasField r "id" = true) :
    getByIdResp rs idv msg =
      match specFirst rs idv with
      | some r => .okRecord r
      | none => .notFound msg := by
  unfold getByIdResp
  rw [findById_ok rs idv h]
  cases hf : specFirst rs idv with
  | none => rfl
  | some r => simp [Except.map, runH, specFirst_nonempty hf]

/-- With a string id on every skill record, the final comprehension succeeds
and keeps exactly the skills whose id lies in the gap set. -/
theorem filterSkills_ok (ss : List Record) (gap : List String)
    (h : ∀ s ∈ ss, hasStrField s "id" = true) :
    filterSkills ss gap = .ok (skillsWithIdIn ss gap) := by
  unfold skillsWithIdIn
  induction ss with
  | nil => rfl
  | cons s rest ih =>
    have hs := h s (by simp)
    have hrest := ih (fun x hx => h x (by simp [hx]))
    unfold hasStrField at hs
    cases hw : recFind s "id" with
    | none => rw [hw] at hs; simp at hs
    | some w =>
      cases w with
      | arr l => rw [hw] at hs; simp at hs
      | str t =>
        simp only [filterSkills, getField_of_recFind hw, ok_bind, inStrSet,
          hrest, pure_eq_ok, List.filter_cons, hw]

/-- With ids on the teams and `team_id` on the roles, the nested
accumulation loop succeeds and yields the flattened per-team union. -/
theorem accumExpected_ok (roles : List Record) (ts : List Record)
    (hr : ∀ r ∈ roles, hasField r "team_id" = true)
    (ht : ∀ t ∈ ts, hasField t "id" = true) :
    accumExpected roles ts = .ok (accumValue roles ts) := by
  unfold accumValue
  induction ts with
  | nil => rfl
  | cons t rest ih =>
    obtain ⟨tid, htid⟩ := hasField_iff.mp (ht t (by simp))
    have hrest := ih (fun x hx => ht x (by simp [hx]))
    have hfk : (fun r => fieldMatches r "team_id" tid) = (fun r => fkLinks r "team_id" t) := by
      funext r
      unfold fkLinks
      rw [htid]
    simp only [accumExpected, getField_of_recFind htid, ok_bind,
      filterByFK_ok roles "team_id" tid hr, hrest, pure_eq_ok, List.map_cons,
      List.flatten_cons, hfk]

/-- Membership in the nested team-by-team accumulation agrees with
membership in the flat union over all roles under the organization. -/
theorem accum_membership (teams roles : List Record) (oid : String) (s : String) :
    (s ∈ ((teams.filter (fun t => fieldMatches t "organization_id" (.str oid))).map
        (fun t => ((roles.filter (fun r => fkLinks r "team_id" t)).map
          (fun r => pyIterStrs (recFind r "expected_skills"))).flatten)).flatten) ↔
    (s ∈ ((roles.filter (fun r => teams.any (fun t =>
        fieldMatches t "organization_id" (.str oid) && fkLinks r "team_id" t))).map
      (fun r => pyIterStrs (recFind r "expected_skills"))).flatten) := by
  simp only [List.mem_flatten, List.mem_map, List.mem_filter, List.any_eq_true,
    Bool.and_eq_true]
  constructor
  · rintro ⟨l, ⟨t, ⟨ht, hto⟩, rfl⟩, hs⟩
    rw [List.mem_flatten] at hs
    obtain ⟨e, he, hse⟩ := hs
    rw [List.mem_map] at he
    obtain ⟨r, hr, rfl⟩ := he
    rw [List.mem_filter] at hr
    exact ⟨pyIterStrs (recFind r "expected_skills"),
      ⟨r, ⟨hr.1, t, ht, hto, hr.2⟩, rfl⟩, hse⟩
  · rintro ⟨l, ⟨r, ⟨hr, t, ht, hto, hlink⟩, rfl⟩, hs⟩
    refine ⟨((roles.filter (fun x => fkLinks x "team_id" t)).map
      (fun x => pyIterStrs (recFind x "expected_skills"))).flatten,
      ⟨t, ⟨ht, hto⟩, rfl⟩, ?_⟩
    rw [List.mem_flatten]
    exact ⟨pyIterStrs (recFind r "expected_skills"),
      List.mem_map_of_mem _ (List.mem_filter.mpr ⟨hr, hlink⟩), hs⟩

theorem map_ok {α β : Type} (a : α) (f : α → β) :
    (Except.ok a : Except String α).map f = .ok (f a) := rfl

/-- When `expected_skills` is not string-valued, Python iteration of the
field agrees with the data-model reading of the field. -/
theorem pyIterStrs_eq_expSkills (r : Record)
    (h : hasStrField r "expected_skills" = false) :
    pyIterStrs (recFind r "expected_skills") = expSkills r := by
  unfold hasStrField at h
  unfold pyIterStrs expSkills
  cases hw : recFind r "expected_skills" with
  | none => rfl
  | some w =>
    cases w with
    | str s => rw [hw] at h; simp at h
    | arr l => rfl

theorem mem_specRolesUnderOrg {ds : Dataset} {oid : String} {r : Record}
    (h : r ∈ specRolesUnderOrg ds oid) : r ∈ ds.roles := by
  unfold specRolesUnderOrg at h
  exact (List.mem_filter.mp h).1

theorem pyTruthy_some {s : String} (h : s ≠ "") : pyTruthy (some s) = true := by
  simp [pyTruthy, h]

/-! ## Claim theorems -/

/-- C10: a query parameter supplied with an empty-string value is treated
exactly as if it were absent, because parameter presence is tested by
truthiness: the filtered list endpoints return the full unfiltered list,
and the skill-gap endpoint fails with status 400 as if `org_id` were
missing. -/
theorem empty_param_treated_as_absent (ds : Dataset) :
    get_teams ds (some "") = get_teams ds none ∧
    get_teams ds none = .okList ds.teams ∧
    get_roles ds (some "") = get_roles ds none ∧
    get_roles ds none = .okList ds.roles ∧
    get_individuals ds (some "") none = get_individuals ds none none ∧
    get_individuals ds none none = .okList ds.individuals ∧
    get_skill_gap ds (some "") = get_skill_gap ds none ∧
    get_skill_gap ds none = .errJson "org_id parameter is required" 400 ∧
    (get_skill_gap ds (some "")).status = 400 :=
  ⟨rfl, rfl, rfl, rfl, rfl, rfl, rfl, rfl, rfl⟩

/-- C5: with both `team_id` and `role_id` supplied nonempty, the
individuals endpoint returns the same result as with `team_id` alone; the
`role_id` parameter is ignored whenever `team_id` is present. -/
theorem individuals_team_id_precedence (ds : Dataset) (T R : String)
    (hT : T ≠ "") (hR : R ≠ "") :
    get_individuals ds (some T) (some R) = get_individuals ds (some T) none := by
  simp [get_individuals, pyTruthy_some hT]

theorem individuals_team_id_precedence_witness :
    get_individuals exData (some "t1") (some "r1") =
      get_individuals exData (some "t1") none :=
  individuals_team_id_precedence exData "t1" "r1" (by decide) (by decide)

/-- C6 counterexample: with the empty string as industry parameter — an
industry that is not a key of the mapping — the handler returns the full
mapping rather than the empty list the claim requires for an unknown
industry. -/
theorem benchmarks_empty_industry_counterexample :
    get_benchmarks benchData (some "") = .okMap [("tech", ["s1"])] ∧
    get_benchmarks benchData (some "") ≠ .okStrs [] := by decide

/-- C6 (amended): with no industry parameter the handler returns the full
mapping; with a nonempty industry parameter naming a key it returns that
industry's skill-id sequence; with a nonempty unknown industry it returns
an empty list with success status (an empty-string parameter is treated as
absent and yields the full mapping). -/
theorem benchmarks_lookup (ds : Dataset) (ind : String) (hi : ind ≠ "") :
    get_benchmarks ds none = .okMap ds.benchmarks ∧
    (∀ l, benchLookup ds.benchmarks ind = some l →
      get_benchmarks ds (some ind) = .okStrs l) ∧
    (benchLookup ds.benchmarks ind = none →
      get_benchmarks ds (some ind) = .okStrs [] ∧
      (get_benchmarks ds (some ind)).status = 200) := by
  refine ⟨rfl, ?_, ?_⟩
  · intro l hl
    simp [get_benchmarks, pyTruthy_some hi, hl]
  · intro hl
    constructor <;> simp [get_benchmarks, pyTruthy_some hi, hl, HResp.status]

theorem benchmarks_lookup_witness :
    get_benchmarks benchData (some "tech") = .okStrs ["s1"] ∧
    get_benchmarks benchData (some "retail") = .okStrs [] :=
  ⟨(benchmarks_lookup benchData "tech" (by decide)).2.1 ["s1"] (by decide),
   ((benchmarks_lookup benchData "retail" (by decide)).2.2 (by decide)).1⟩

/-- C7: each of the six collections defaults independently to an empty
container when its field is absent from a parsed document; on a document
that cannot be read or parsed all six are substituted with empty defaults
as a unit, and every list endpoint then returns an empty result rather
than the process failing. -/
theorem loader_defaults :
    (∀ d : RawDoc, d.organizations? = none → (extractData d).organizations = []) ∧
    (∀ d : RawDoc, d.teams? = none → (extractData d).teams = []) ∧
    (∀ d : RawDoc, d.roles? = none → (extractData d).roles = []) ∧
    (∀ d : RawDoc, d.individuals? = none → (extractData d).individuals = []) ∧
    (∀ d : RawDoc, d.skills? = none → (extractData d).skills = []) ∧
    (∀ d : RawDoc, d.benchmarks? = none → (extractData d).benchmarks = []) ∧
    loadData none = emptyData ∧
    get_organizations (loadData none) = .okList [] ∧
    (∀ p, get_teams (loadData none) p = .okList []) ∧
    (∀ p, get_roles (loadData none) p = .okList []) ∧
    (∀ p q, get_individuals (loadData none) p q = .okList []) ∧
    get_skills (loadData none) = .okList [] ∧
    (∀ p, pyTruthy p = true → get_benchmarks (loadData none) p = .okStrs []) ∧
    get_benchmarks (loadData none) none = .okMap [] := by
  refine ⟨?_, ?_, ?_, ?_, ?_, ?_, rfl, rfl, ?_, ?_, ?_, rfl, ?_, rfl⟩
  · intro d h; simp [extractData, h]
  · intro d h; simp [extractData, h]
  · intro d h; simp [extractData, h]
  · intro d h; simp [extractData, h]
  · intro d h; simp [extractData, h]
  · intro d h; simp [extractData, h]
  · intro p
    cases hp : pyTruthy p <;>
      simp [get_teams, hp, loadData, emptyData, filterByFK, runH, map_ok]
  · intro p
    cases hp : pyTruthy p <;>
      simp [get_roles, hp, loadData, emptyData, filterByFK, runH, map_ok]
  · intro p q
    cases hp : pyTruthy p <;> cases hq : pyTruthy q <;>
      simp [get_individuals, hp, hq, loadData, emptyData, filterByFK, runH, map_ok]
  · intro p hp
    simp [get_benchmarks, hp, loadData, emptyData, benchLookup]

theorem loader_defaults_witness :
    (extractData emptyDoc).organizations = [] ∧
    get_teams (loadData none) (some "x") = .okList [] ∧
    get_benchmarks (loadData none) (some "tech") = .okStrs [] := by
  obtain ⟨h1, _, _, _, _, _, _, _, h9, _, _, _, h13, _⟩ := loader_defaults
  exact ⟨h1 emptyDoc rfl, h9 (some "x"), h13 (some "tech") (by decide)⟩

/-- C3: for every collection, get-by-id returns the first record in load
order whose id field equals the supplied id (earliest match under
duplicate ids), and a 404 not-found signal with a short message when no
record matches; a miss is reported as a 404, never as an empty
collection. -/
theorem get_by_id_first_match (ds : Dataset) (idv : String)
    (h1 : ∀ r ∈ ds.organizations, hasField r "id" = true)
    (h2 : ∀ r ∈ ds.teams, hasField r "id" = true)
    (h3 : ∀ r ∈ ds.roles, hasField r "id" = true)
    (h4 : ∀ r ∈ ds.individuals, hasField r "id" = true) :
    get_organization ds idv = (match specFirst ds.organizations idv with
      | some r => .okRecord r
      | none => .notFound "Organization not found") ∧
    get_team ds idv = (match specFirst ds.teams idv with
      | some r => .okRecord r
      | none => .notFound "Team not found") ∧
    get_role ds idv = (match specFirst ds.roles idv with
      | some r => .okRecord r
      | none => .notFound "Role not found") ∧
    get_individual ds idv = (match specFirst ds.individuals idv with
      | some r => .okRecord r
      | none => .notFound "Individual not found") ∧
    (∀ msg, (HResp.notFound msg).status = 404 ∧ HResp.notFound msg ≠ .okList []) :=
  ⟨getByIdResp_eq _ _ _ h1, getByIdResp_eq _ _ _ h2, getByIdResp_eq _ _ _ h3,
   getByIdResp_eq _ _ _ h4, fun _ => ⟨rfl, by simp⟩⟩

theorem get_by_id_first_match_witness :
    get_organization exData "o1" = .okRecord [("id", .str "o1"), ("industry", .str "tech")] ∧
    get_organization exData "zz" = .notFound "Organization not found" := by
  have h := get_by_id_first_match exData "o1" (by decide) (by decide) (by decide) (by decide)
  have h' := get_by_id_first_match exData "zz" (by decide) (by decide) (by decide) (by decide)
  exact ⟨h.1.trans (by decide), h'.1.trans (by decide)⟩

/-- C2: the skill-gap endpoint fails with a structured 400 error when
`org_id` is missing, with 404 when no organization matches, and with 400
when the matched organization lacks an industry field; in each case the
response is the error, not a gap result. -/
theorem skillgap_error_cases (ds : Dataset) (oid : String) (O : Record)
    (hoid : oid ≠ "")
    (horgs : ∀ o ∈ ds.organizations, hasField o "id" = true) :
    (get_skill_gap ds none = .errJson "org_id parameter is required" 400) ∧
    ((get_skill_gap ds none).status = 400) ∧
    (specFirst ds.organizations oid = none →
      get_skill_gap ds (some oid) = .errJson "Organization not found" 404 ∧
      (get_skill_gap ds (some oid)).status = 404) ∧
    (specFirst ds.organizations oid = some O → recFind O "industry" = none →
      get_skill_gap ds (some oid) = .errJson "Organization does not have an industry field" 400 ∧
      (get_skill_gap ds (some oid)).status = 400) := by
  refine ⟨rfl, rfl, ?_, ?_⟩
  · intro hf
    have : get_skill_gap ds (some oid) = .errJson "Organization not found" 404 := by
      simp only [get_skill_gap, pyTruthy_some hoid, if_true, Option.getD_some,
        findById_ok ds.organizations oid horgs, hf, ok_bind, pure_eq_ok, runH]
    exact ⟨this, by rw [this]; rfl⟩
  · intro hf hind
    have hne : O.isEmpty = false := specFirst_nonempty hf
    have hhf : hasField O "industry" = false := by
      unfold hasField; rw [hind]; rfl
    have : get_skill_gap ds (some oid) =
        .errJson "Organization does not have an industry field" 400 := by
      simp only [get_skill_gap, pyTruthy_some hoid, if_true, Option.getD_some,
        findById_ok ds.organizations oid horgs, hf, ok_bind, pure_eq_ok, runH,
        hne, hhf, Bool.not_false, if_false, Bool.false_eq_true]
    exact ⟨this, by rw [this]; rfl⟩

theorem skillgap_error_cases_witness :
    get_skill_gap noIndData none = .errJson "org_id parameter is required" 400 ∧
    get_skill_gap noIndData (some "zz") = .errJson "Organization not found" 404 ∧
    get_skill_gap noIndData (some "o2") = .errJson "Organization does not have an industry field" 400 := by
  have h := skillgap_error_cases noIndData "zz" [] (by decide) (by decide)
  have h' := skillgap_error_cases noIndData "o2" [("id", .str "o2")] (by decide) (by decide)
  exact ⟨h.1, (h.2.2.1 (by decide)).1, (h'.2.2.2 (by decide) (by decide)).1⟩

/-- C4 counterexample: filtering teams by the empty-string value returns
the full list, not the records whose `organization_id` equals the empty
string, so the claim fails for the filter value `""`. -/
theorem list_filter_empty_value_counterexample :
    get_teams emptyFkData (some "") = .okList emptyFkData.teams ∧
    get_teams emptyFkData (some "") ≠
      .okList (specFilter emptyFkData.teams "organization_id" "") := by decide

/-- C4 (amended): for every nonempty filter value and records carrying the
filtered foreign-key field, each list-with-filter endpoint returns exactly
the subsequence of records in load order whose field equals the value
under case-sensitive string equality; an unmatched filter gives an empty
list with success status. -/
theorem list_filter_exact (ds : Dataset) (v : String) (hv : v ≠ "")
    (ht : ∀ r ∈ ds.teams, hasField r "organization_id" = true)
    (hr : ∀ r ∈ ds.roles, hasField r "team_id" = true)
    (hit : ∀ r ∈ ds.individuals, hasField r "team_id" = true)
    (hir : ∀ r ∈ ds.individuals, hasField r "role_id" = true) :
    get_teams ds (some v) = .okList (specFilter ds.teams "organization_id" v) ∧
    get_roles ds (some v) = .okList (specFilter ds.roles "team_id" v) ∧
    get_individuals ds (some v) none = .okList (specFilter ds.individuals "team_id" v) ∧
    get_individuals ds none (some v) = .okList (specFilter ds.individuals "role_id" v) ∧
    (∀ rs : List Record, (HResp.okList rs).status = 200) := by
  refine ⟨?_, ?_, ?_, ?_, fun _ => rfl⟩ <;>
    simp [get_teams, get_roles, get_individuals, pyTruthy_some hv, pyTruthy, hv,
      filterByFK_ok _ _ _ ht, filterByFK_ok _ _ _ hr,
      filterByFK_ok _ _ _ hit, filterByFK_ok _ _ _ hir,
      runH, map_ok, specFilter]

theorem list_filter_exact_witness :
    get_teams exData (some "o1") = .okList exData.teams := by
  have h := list_filter_exact exData "o1" (by decide) (by decide) (by decide) (by decide) (by decide)
  exact h.1.trans (by decide)

/-- C8 counterexample: on a dataset containing a team record lacking the
`organization_id` field, the filtered teams endpoint raises a `KeyError`
and answers 500, so the field access during filtering is not total and the
endpoint does error. -/
theorem list_filter_keyerror_counterexample :
    get_teams missingFkData (some "x") = .serverError "KeyError: organization_id" ∧
    (get_teams missingFkData (some "x")).status = 500 := by decide

/-- C8 (amended): on datasets whose records carry the filtered foreign-key
fields, the list endpoints never error: every response has status 200, and
an unmatched filter yields an empty list. -/
theorem list_endpoints_never_error (ds : Dataset)
    (ht : ∀ r ∈ ds.teams, hasField r "organization_id" = true)
    (hr : ∀ r ∈ ds.roles, hasField r "team_id" = true)
    (hit : ∀ r ∈ ds.individuals, hasField r "team_id" = true)
    (hir : ∀ r ∈ ds.individuals, hasField r "role_id" = true) :
    (∀ p, (get_teams ds p).status = 200) ∧
    (∀ p, (get_roles ds p).status = 200) ∧
    (∀ p q, (get_individuals ds p q).status = 200) ∧
    (∀ v, v ≠ "" → specFilter ds.teams "organization_id" v = [] →
      get_teams ds (some v) = .okList []) := by
  refine ⟨?_, ?_, ?_, ?_⟩
  · intro p
    cases hp : pyTruthy p <;>
      simp [get_teams, hp, filterByFK_ok _ _ _ ht, runH, map_ok, HResp.status]
  · intro p
    cases hp : pyTruthy p <;>
      simp [get_roles, hp, filterByFK_ok _ _ _ hr, runH, map_ok, HResp.status]
  · intro p q
    cases hp : pyTruthy p <;> cases hq : pyTruthy q <;>
      simp [get_individuals, hp, hq, filterByFK_ok _ _ _ hit,
        filterByFK_ok _ _ _ hir, runH, map_ok, HResp.status]
  · intro v hv hempty
    unfold specFilter at hempty
    simp [get_teams, pyTruthy_some hv, filterByFK_ok _ _ _ ht, runH, map_ok, hempty]

theorem list_endpoints_never_error_witness :
    get_teams exData (some "nomatch") = .okList [] ∧
    (get_teams exData none).status = 200 := by
  have h := list_endpoints_never_error exData (by decide) (by decide) (by decide) (by decide)
  exact ⟨h.2.2.2 "nomatch" (by decide) (by decide), h.1 none⟩

/-- C9: the skill-gap computation is deterministic in its inputs: the
handler is a function of the dataset and the parameter, and its result is
moreover independent of the representation of the accumulated
expected-skill set (only membership matters). -/
theorem skillgap_deterministic :
    (∀ (ds : Dataset) (oid : Option String),
      get_skill_gap ds oid = get_skill_gap ds oid) ∧
    (∀ (skills : List Record) (bench e1 e2 : List String),
      (∀ s, e1.contains s = e2.contains s) →
      gapFromExpected skills bench e1 = gapFromExpected skills bench e2) := by
  refine ⟨fun _ _ => rfl, fun skills bench e1 e2 h => ?_⟩
  unfold gapFromExpected
  rw [List.filter_congr (fun b _ => by rw [h b])]

theorem skillgap_deterministic_witness :
    get_skill_gap exData (some "o1") = get_skill_gap exData (some "o1") ∧
    gapFromExpected [[("id", .str "s1")]] ["s1"] ["a"] =
      gapFromExpected [[("id", .str "s1")]] ["s1"] ["a"] :=
  ⟨skillgap_deterministic.1 exData (some "o1"),
   skillgap_deterministic.2 [[("id", .str "s1")]] ["s1"] ["a"] ["a"] (fun _ => rfl)⟩

/-- C1 counterexample: an organization whose id is the empty string carries
an industry with a nonempty gap, yet querying its id yields the 400
missing-parameter error instead of the 200 gap result the claim requires,
because the required-parameter check tests truthiness. -/
theorem skillgap_empty_org_id_counterexample :
    get_skill_gap emptyIdOrgData (some "") = .errJson "org_id parameter is required" 400 ∧
    specGapSkills emptyIdOrgData "" "tech" = [[("id", .str "s1")]] ∧
    get_skill_gap emptyIdOrgData (some "") ≠
      .okList (specGapSkills emptyIdOrgData "" "tech") := by decide

/-- C1 (amended): for every dataset whose records carry their data-model
fields, every organization with a nonempty id that is the first record
matching its id and that carries a string `industry` attribute, the
skill-gap endpoint answers 200 with exactly those skill records whose id
is in the industry benchmark sequence (empty if the industry is not a
benchmark key) but not in the union of `expected_skills` (defaulting to
empty when absent) over all roles whose `team_id` equals the id of some
team whose `organization_id` equals the organization id; gap skill ids
with no skill record are silently omitted. -/
theorem skillgap_set_difference (ds : Dataset) (oid ind : String) (O : Record)
    (hoid : oid ≠ "")
    (horgs : ∀ o ∈ ds.organizations, hasField o "id" = true)
    (hteams : ∀ t ∈ ds.teams, hasField t "organization_id" = true ∧ hasField t "id" = true)
    (hroles : ∀ r ∈ ds.roles, hasField r "team_id" = true ∧ hasStrField r "expected_skills" = false)
    (hskills : ∀ s ∈ ds.skills, hasStrField s "id" = true)
    (hfind : specFirst ds.organizations oid = some O)
    (hind : recFind O "industry" = some (.str ind)) :
    get_skill_gap ds (some oid) = .okList (specGapSkills ds oid ind) ∧
    (get_skill_gap ds (some oid)).status = 200 := by
  have hne : O.isEmpty = false := specFirst_nonempty hfind
  have hhf : hasField O "industry" = true := by
    unfold hasField; rw [hind]; rfl
  have hteamsFK : ∀ t ∈ ds.teams, hasField t "organization_id" = true :=
    fun t h => (hteams t h).1
  have hrolesFK : ∀ r ∈ ds.roles, hasField r "team_id" = true :=
    fun r h => (hroles r h).1
  have horgTeamsId : ∀ t ∈ ds.teams.filter
      (fun t => fieldMatches t "organization_id" (.str oid)), hasField t "id" = true :=
    fun t h => (hteams t (List.mem_of_mem_filter h)).2
  have hmem : ∀ s, s ∈ accumValue ds.roles (ds.teams.filter
      (fun t => fieldMatches t "organization_id" (.str oid))) ↔
      s ∈ specExpectedUnion ds oid := by
    intro s
    unfold accumValue
    refine (accum_membership ds.teams ds.roles oid s).trans ?_
    unfold specExpectedUnion specRolesUnderOrg
    rw [List.map_congr_left (fun r hrm =>
      pyIterStrs_eq_expSkills r ((hroles r (List.mem_filter.mp hrm).1).2))]
  have hcont : ∀ b, (accumValue ds.roles (ds.teams.filter
      (fun t => fieldMatches t "organization_id" (.str oid)))).contains b =
      (specExpectedUnion ds oid).contains b := by
    intro b
    exact Bool.coe_iff_coe.mp (by rw [contains_eq_mem, contains_eq_mem]; exact hmem b)
  have hgapids : ((benchLookup ds.benchmarks ind).getD []).filter
      (fun b => !(accumValue ds.roles (ds.teams.filter
        (fun t => fieldMatches t "organization_id" (.str oid)))).contains b) =
      specGapIds ds oid ind := by
    unfold specGapIds
    exact List.filter_congr (fun b _ => by rw [hcont b])
  have hmain : get_skill_gap ds (some oid) = .okList (specGapSkills ds oid ind) := by
    simp only [get_skill_gap, pyTruthy_some hoid, if_true, Option.getD_some,
      findById_ok ds.organizations oid horgs, hfind, ok_bind, hne,
      Bool.false_eq_true, if_false, hhf, Bool.not_true,
      getField_of_recFind hind,
      filterByFK_ok ds.teams "organization_id" (.str oid) hteamsFK,
      accumExpected_ok ds.roles _ hrolesFK horgTeamsId,
      benchGet, gapFromExpected,
      filterSkills_ok ds.skills _ hskills,
      pure_eq_ok, runH, hgapids]
    rfl
  exact ⟨hmain, by rw [hmain]; rfl⟩

theorem skillgap_set_difference_witness :
    get_skill_gap exData (some "o1") = .okList [[("id", .str "s2")]] := by
  have h := skillgap_set_difference exData "o1" "tech"
    [("id", .str "o1"), ("industry", .str "tech")]
    (by decide) (by decide) (by decide) (by decide) (by decide) (by decide) (by decide)
  exact h.1.trans (by decide)
